import Mathlib

/-!
Shallow embedding of `src/lib_caida_collector/caida_collector.py`.

Python strings are embedded as `List Char` (`Line`); Python's `str.split`,
`str.strip`, `int(...)`, `str.startswith` and the `in` substring test are
embedded by `pySplit`, `pyStrip`, `pyInt`, `pyStartswith` and `pyContains`.
Python exceptions (`ValueError` from `int(...)` and from tuple unpacking,
`IndexError` from `[0]`) are embedded with `Except PyErr`.
Python `set` is embedded as `Finset`.

Non-modelled Python niceties of `int(...)`: underscore digit grouping and
non-ASCII digits (no dataset line and no claim exercises them).
-/

deriving instance DecidableEq for Except

namespace Caida

/-- A Python string: a list of characters. -/
abbrev Line := List Char

/-- Convenience conversion from a Lean string literal to a `Line`. -/
def toLine (s : String) : Line := s.toList

/-- The characters Python's `str.strip()` removes (ASCII whitespace). -/
def pyIsSpace (c : Char) : Bool :=
  c = ' ' ∨ c = '\t' ∨ c = '\n' ∨ c = '\r' ∨ c.toNat = 11 ∨ c.toNat = 12

/-- Python `s.strip()`: drop leading and trailing whitespace. -/
def pyStrip (s : Line) : Line :=
  ((s.dropWhile pyIsSpace).reverse.dropWhile pyIsSpace).reverse

/-- Python `s.split(sep)` for a one-character separator `sep`:
keeps empty fields, so `pySplit c l` is never the empty list
(`"".split(sep) == [""]`). -/
def pySplit (sep : Char) : Line → List Line
  | [] => [[]]
  | c :: cs =>
    if c = sep then [] :: pySplit sep cs
    else
      match pySplit sep cs with
      | [] => [[c]]
      | t :: ts => (c :: t) :: ts

/-- Python `l[-1]` on the (always non-empty) result of a split. -/
def pyLast (ls : List Line) : Line := ls.getLastD []

/-- Value of a list of ASCII digit characters, most significant first. -/
def digitsToNat (l : Line) : Nat :=
  l.foldl (fun n c => 10 * n + (c.toNat - 48)) 0

/-- Python `int(t)` on an already-stripped string: an optional sign followed
by one or more ASCII digits; anything else raises `ValueError` (`none`). -/
def pyIntCore (l : Line) : Option Int :=
  match l with
  | '+' :: rest =>
    if rest ≠ [] ∧ rest.all Char.isDigit then some ((digitsToNat rest : Nat) : Int)
    else none
  | '-' :: rest =>
    if rest ≠ [] ∧ rest.all Char.isDigit then some (-((digitsToNat rest : Nat) : Int))
    else none
  | t =>
    if t ≠ [] ∧ t.all Char.isDigit then some ((digitsToNat t : Nat) : Int)
    else none

/-- Python `int(s)` on a string: whitespace around the token is ignored. -/
def pyInt (s : Line) : Option Int := pyIntCore (pyStrip s)

/-- Python `line.startswith(pre)`. -/
def pyStartswith (line pre : Line) : Bool := decide (pre <+: line)

/-- Python `pat in line` (substring containment). -/
def pyContains (pat line : Line) : Bool := decide (pat <:+: line)

/-- The Python exceptions the pipeline can raise while parsing:
`ValueError` from `int(...)` on a bad token, `ValueError` from unpacking a
`split("|")` that does not have exactly four fields, and `IndexError` from
`[0]` on an empty list. -/
inductive PyErr where
  | valueErrorInt (token : Line)
  | valueErrorUnpack (line : Line)
  | indexError
deriving DecidableEq

/-- Modelled from the spec: `CustomerProviderLink` (the repository file
`customer_provider_link.py` is imported by the collector but is not under
`src/`). The spec: "an ordered pair (providerASN, customerASN). Two links
with the same ordered pair are the same entity"; so identity is structural
equality of the ordered pair. -/
structure CPLink where
  provider_asn : Int
  customer_asn : Int
deriving DecidableEq

/-- Modelled from the spec: `PeerLink` (the repository file `peer_link.py`
is imported by the collector but is not under `src/`). The spec: "an
unordered pair of ASNs. Identity is order-independent: (A,B) and (B,A)
denote the same link", realised by a canonicalized, order-independent
representation of the pair. -/
structure PeerLink where
  lo : Int
  hi : Int
deriving DecidableEq

/-- The `PeerLink(a, b)` constructor: normalizes the unordered pair. -/
def mkPeerLink (a b : Int) : PeerLink := ⟨min a b, max a b⟩

/-- The four sets built by `CaidaCollector._get_ases`, in the order the code
returns them: `cp_links, peer_links, ixps, input_clique`. -/
structure AsSets where
  cp_links : Finset CPLink
  peer_links : Finset PeerLink
  ixps : Finset Int
  input_clique : Finset Int
deriving DecidableEq

/-- `for asn in line.split(":")[-1].strip().split(" "): s.add(int(asn))` —
the shared token loop of `_extract_input_clique` and `_extract_ixp_ases`.
A token `int(...)` rejects raises `ValueError`. -/
def addTokens (toks : List Line) (s : Finset Int) : Except PyErr (Finset Int) :=
  match toks with
  | [] => .ok s
  | t :: ts =>
    match pyInt t with
    | some n => addTokens ts (insert n s)
    | none => .error (.valueErrorInt t)

/-- `CaidaCollector._extract_input_clique`. -/
def extract_input_clique (line : Line) (input_clique : Finset Int) :
    Except PyErr (Finset Int) :=
  addTokens (pySplit ' ' (pyStrip (pyLast (pySplit ':' line)))) input_clique

/-- `CaidaCollector._extract_ixp_ases`. -/
def extract_ixp_ases (line : Line) (ixps : Finset Int) :
    Except PyErr (Finset Int) :=
  addTokens (pySplit ' ' (pyStrip (pyLast (pySplit ':' line)))) ixps

/-- `CaidaCollector._extract_provider_customers`:
`provider_asn, customer_asn, _, source = line.split("|")` then
`cp_links.add(CPLink(customer_asn=int(customer_asn),
provider_asn=int(provider_asn)))`. Python evaluates the keyword arguments
left to right, so `int(customer_asn)` runs first. -/
def extract_provider_customers (line : Line) (cp_links : Finset CPLink) :
    Except PyErr (Finset CPLink) :=
  match pySplit '|' line with
  | [provider_asn, customer_asn, _, _] =>
    match pyInt customer_asn with
    | none => .error (.valueErrorInt customer_asn)
    | some c =>
      match pyInt provider_asn with
      | none => .error (.valueErrorInt provider_asn)
      | some p => .ok (insert ⟨p, c⟩ cp_links)
  | _ => .error (.valueErrorUnpack line)

/-- `CaidaCollector._extract_peers`:
`peer1_asn, peer2_asn, _, source = line.split("|")` then
`peer_links.add(PeerLink(int(peer1_asn), int(peer2_asn)))`. -/
def extract_peers (line : Line) (peer_links : Finset PeerLink) :
    Except PyErr (Finset PeerLink) :=
  match pySplit '|' line with
  | [peer1_asn, peer2_asn, _, _] =>
    match pyInt peer1_asn with
    | none => .error (.valueErrorInt peer1_asn)
    | some a =>
      match pyInt peer2_asn with
      | none => .error (.valueErrorInt peer2_asn)
      | some b => .ok (insert (mkPeerLink a b) peer_links)
  | _ => .error (.valueErrorUnpack line)

/-- One iteration of the `for line in lines` loop of
`CaidaCollector._get_ases`: dispatch on the comment markers, then on
`"-1" in line`. -/
def get_ases_step (acc : AsSets) (line : Line) : Except PyErr AsSets :=
  if pyStartswith line (toLine "# input clique") then
    Except.map (fun s => { acc with input_clique := s })
      (extract_input_clique line acc.input_clique)
  else if pyStartswith line (toLine "# IXP ASes") then
    Except.map (fun s => { acc with ixps := s })
      (extract_ixp_ases line acc.ixps)
  else if !pyStartswith line (toLine "#") then
    if pyContains (toLine "-1") line then
      Except.map (fun s => { acc with cp_links := s })
        (extract_provider_customers line acc.cp_links)
    else
      Except.map (fun s => { acc with peer_links := s })
        (extract_peers line acc.peer_links)
  else
    .ok acc

/-- The loop of `CaidaCollector._get_ases`; a raised exception aborts the
whole pass (no partial sets escape). -/
def get_ases_go (acc : AsSets) : List Line → Except PyErr AsSets
  | [] => .ok acc
  | l :: ls =>
    match get_ases_step acc l with
    | .error e => .error e
    | .ok acc' => get_ases_go acc' ls

/-- `CaidaCollector._get_ases`: classify every raw line into the four sets,
starting from four empty sets. -/
def get_ases (lines : List Line) : Except PyErr AsSets :=
  get_ases_go ⟨∅, ∅, ∅, ∅⟩ lines

/-- A four-field relationship line
`<field1>|<field2>|<relationship-code>|<source-tag>` as the dataset writes
it. -/
def mkDataLine (f1 f2 rel src : Line) : Line :=
  f1 ++ '|' :: (f2 ++ '|' :: (rel ++ '|' :: src))

/-- The URL constant prepended in `CaidaCollector._get_url`. -/
def urlBase : Line :=
  toLine "http://data.caida.org/datasets/as-relationships/serial-2/"

/-- `CaidaCollector._get_url`:
`[prepend + x for x in helper_funcs.get_hrefs(prepend)
  if self.dl_time.strftime("%Y%m01") in x][0]`.
`hrefs` stands for the remote directory listing returned by the external
`helper_funcs.get_hrefs`, and `timeToken` for the vintage token
`dl_time.strftime("%Y%m01")`. Indexing an empty comprehension with `[0]`
raises `IndexError`. -/
def get_url (hrefs : List Line) (timeToken : Line) : Except PyErr Line :=
  match (hrefs.filter (fun x => pyContains timeToken x)).map
      (fun x => urlBase ++ x) with
  | [] => .error .indexError
  | u :: _ => .ok u

/-- The faults of the fetch phase: a failed download
(`file_funcs.download_file` raising) or a failed bz2 decompression
(`bz2.open` / `readlines` raising on a corrupt payload). -/
inductive FetchErr where
  | downloadError
  | decompressionError
deriving DecidableEq

/-- The file-system and network state the fetch/cache phase of
`CaidaCollector` touches: the cache file for the run's vintage
(`cache_dir / dl_time.strftime("%Y.%m.%d.txt")`, `none` when absent), the
lines the remote payload decompresses to, the number of downloads performed
so far, and whether the scoped temporary download file
(`self._dir / "download.bz2"`) exists. -/
structure CacheState where
  cacheFile : Option (List Line)
  remote : List Line
  fetchCount : Nat
  tempExists : Bool
deriving DecidableEq

/-- Python `with`-statement semantics for a scoped resource: the scope is
entered, the body runs, and the exit action runs whether the body returned
normally or raised (the raised exception is then re-propagated). -/
def withScope {σ ε α : Type} (enter : σ → σ) (scopeExit : σ → σ)
    (body : σ → Except ε α × σ) (st : σ) : Except ε α × σ :=
  let st1 := enter st
  let p := body st1
  (p.1, scopeExit p.2)

/-- Entering `file_funcs.temp_path(path_str=...)`: yields the temporary
path; no file is created yet. -/
def tempEnter (st : CacheState) : CacheState := st

/-- Modelled from the spec: the exit action of `file_funcs.temp_path`
(`lib_utils.file_funcs` is an external import, not under `src/`); per the
spec the scoped temporary download file is "guaranteed removed on every
exit path ... before control returns to the caller". -/
def tempExit (st : CacheState) : CacheState := { st with tempExists := false }

/-- `file_funcs.download_file(url, path)`: on success the compressed
payload is on disk at the temporary path and one remote fetch happened; on
failure (`DownloadError`) a partial temporary file may have been written.
The `dlOk` flag is the (external) network outcome. -/
def download_file (dlOk : Bool) (st : CacheState) :
    Except FetchErr Unit × CacheState :=
  if dlOk then
    (.ok (), { st with tempExists := true, fetchCount := st.fetchCount + 1 })
  else
    (.error .downloadError, { st with tempExists := true })

/-- `bz2.open(path)` + `[x.decode() for x in f.readlines()]`: decompress
the downloaded payload in memory; `dcOk` is the (external) outcome on the
payload (`False` for a corrupt or truncated payload). -/
def bz2_read (dcOk : Bool) (st : CacheState) :
    Except FetchErr (List Line) × CacheState :=
  if dcOk then (.ok st.remote, st) else (.error .decompressionError, st)

/-- `CaidaCollector._write_cache_file`: inside `with temp_path(...)`,
download then decompress; after the `with` block, write the decompressed
lines to the cache path (overwriting any prior file). An exception from
download or decompression propagates to the caller, after the scoped exit
action has run. -/
def write_cache_file (dlOk dcOk : Bool) (st : CacheState) :
    Except FetchErr Unit × CacheState :=
  let p := withScope tempEnter tempExit
    (fun s =>
      match download_file dlOk s with
      | (.error e, s1) => (.error e, s1)
      | (.ok _, s1) => bz2_read dcOk s1) st
  match p with
  | (.error e, st1) => (.error e, st1)
  | (.ok data, st1) => (.ok (), { st1 with cacheFile := some data })

/-- `CaidaCollector._read_file`:
`if not cache_path.exists() or cache is False: self._write_cache_file(...)`
then read the cache file and strip each line. An exception raised by
`_write_cache_file` propagates, so the read never sees a missing file. -/
def read_file (cache dlOk dcOk : Bool) (st : CacheState) :
    Except FetchErr (List Line) × CacheState :=
  let p :=
    if st.cacheFile.isNone || !cache then write_cache_file dlOk dcOk st
    else (.ok (), st)
  match p with
  | (.error e, st1) => (.error e, st1)
  | (.ok _, st1) => (.ok ((st1.cacheFile.getD []).map pyStrip), st1)

/-! Helper lemmas about the embedded Python string operations. -/

/-- A split on a separator-free string is the one-field list. -/
theorem pySplit_no_sep {sep : Char} : ∀ (l : Line), sep ∉ l → pySplit sep l = [l]
  | [], _ => rfl
  | c :: cs, h => by
    have hc : ¬ c = sep := fun e => h (e ▸ List.mem_cons_self c cs)
    have ih := pySplit_no_sep cs (fun m => h (List.mem_cons_of_mem c m))
    simp [pySplit, hc, ih]

/-- Splitting past a separator-free chunk peels off one field. -/
theorem pySplit_chunk {sep : Char} :
    ∀ (a : Line) (rest : Line), sep ∉ a →
      pySplit sep (a ++ sep :: rest) = a :: pySplit sep rest
  | [], rest, _ => by simp [pySplit]
  | c :: cs, rest, h => by
    have hc : ¬ c = sep := fun e => h (e ▸ List.mem_cons_self c cs)
    have ih := pySplit_chunk cs rest (fun m => h (List.mem_cons_of_mem c m))
    simp [pySplit, hc, ih]

/-- Splitting a well-formed four-field data line gives the four fields. -/
theorem pySplit_mkDataLine {f1 f2 rel src : Line}
    (h1 : '|' ∉ f1) (h2 : '|' ∉ f2) (h3 : '|' ∉ rel) (h4 : '|' ∉ src) :
    pySplit '|' (mkDataLine f1 f2 rel src) = [f1, f2, rel, src] := by
  unfold mkDataLine
  rw [pySplit_chunk _ _ h1, pySplit_chunk _ _ h2, pySplit_chunk _ _ h3,
    pySplit_no_sep _ h4]

/-- `startswith` is antitone in the tested marker: failing on a marker
forces failure on every marker extending it. -/
theorem pyStartswith_mono {line p q : Line} (hpq : p <+: q)
    (h : pyStartswith line p = false) : pyStartswith line q = false := by
  refine decide_eq_false fun hq => ?_
  exact absurd (hpq.trans hq) (of_decide_eq_false h)

/-- A line that does not start with the comment marker is dispatched as a
relationship line, on the result of the substring test for the transit
sentinel. -/
theorem get_ases_step_data (acc : AsSets) (line : Line)
    (hc : pyStartswith line (toLine "#") = false) :
    get_ases_step acc line =
      if pyContains (toLine "-1") line then
        Except.map (fun s => { acc with cp_links := s })
          (extract_provider_customers line acc.cp_links)
      else
        Except.map (fun s => { acc with peer_links := s })
          (extract_peers line acc.peer_links) := by
  have m1 : toLine "#" <+: toLine "# input clique" := by decide
  have m2 : toLine "#" <+: toLine "# IXP ASes" := by decide
  rw [get_ases_step, pyStartswith_mono m1 hc, pyStartswith_mono m2 hc, hc]
  rfl

/-- Lines free of the `'-'` character never pass the transit-sentinel
substring test. -/
theorem pyContains_dash_false {line : Line} (h : '-' ∉ line) :
    pyContains (toLine "-1") line = false := by
  refine decide_eq_false fun hinf => ?_
  rcases hinf with ⟨s, t, e⟩
  exact h (by rw [← e]; simp [toLine])

/-- Character membership in a four-field data line. -/
theorem not_mem_mkDataLine {c : Char} {f1 f2 rel src : Line}
    (k1 : c ∉ f1) (k2 : c ∉ f2) (k3 : c ∉ rel) (k4 : c ∉ src)
    (k5 : c ≠ '|') : c ∉ mkDataLine f1 f2 rel src := by
  simp only [mkDataLine, List.mem_append, List.mem_cons]
  rintro (h | h | h | h | h | h | h) <;> first
    | exact k1 h | exact k2 h | exact k3 h | exact k4 h | exact k5 h

/-- The transit sentinel is a substring of every data line whose
relationship-code field is the transit sentinel itself. -/
theorem pyContains_transit {f1 f2 src : Line} :
    pyContains (toLine "-1") (mkDataLine f1 f2 (toLine "-1") src) = true := by
  refine decide_eq_true ?_
  refine ⟨f1 ++ '|' :: f2 ++ ['|'], '|' :: src, ?_⟩
  simp [mkDataLine, toLine]

/-- A pass over a single classified line. -/
theorem get_ases_single {l : Line} {a : AsSets}
    (h : get_ases_step ⟨∅, ∅, ∅, ∅⟩ l = .ok a) : get_ases [l] = .ok a := by
  simp [get_ases, get_ases_go, h]

/-- A pass over two classified lines. -/
theorem get_ases_pair {l1 l2 : Line} {a1 a2 : AsSets}
    (h1 : get_ases_step ⟨∅, ∅, ∅, ∅⟩ l1 = .ok a1)
    (h2 : get_ases_step a1 l2 = .ok a2) : get_ases [l1, l2] = .ok a2 := by
  simp [get_ases, get_ases_go, h1, h2]

/-- If some line of the input makes the loop body raise whatever the
accumulated sets are, the whole pass raises. -/
theorem get_ases_go_error {line : Line}
    (herr : ∀ acc, ∃ e, get_ases_step acc line = .error e) :
    ∀ (lines : List Line), line ∈ lines →
      ∀ acc, ∃ e, get_ases_go acc lines = .error e
  | [], hmem => absurd hmem (List.not_mem_nil line)
  | l :: ls, hmem => by
    intro acc
    rcases List.mem_cons.1 hmem with heq | htail
    · subst heq
      rcases herr acc with ⟨e, he⟩
      exact ⟨e, by simp [get_ases_go, he]⟩
    · cases hstep : get_ases_step acc l with
      | error e => exact ⟨e, by simp [get_ases_go, hstep]⟩
      | ok acc' =>
        rcases get_ases_go_error herr ls htail acc' with ⟨e, he⟩
        exact ⟨e, by simp [get_ases_go, hstep, he]⟩

/-- `_extract_provider_customers` raises on a line that does not split into
exactly four fields, or whose first or second field is not an integer. -/
theorem extract_provider_customers_err (line : Line)
    (hbad : (pySplit '|' line).length ≠ 4
        ∨ ∃ g1 g2 g3 g4, pySplit '|' line = [g1, g2, g3, g4]
            ∧ (pyInt g1 = none ∨ pyInt g2 = none)) :
    ∀ s, ∃ e, extract_provider_customers line s = Except.error e := by
  intro s
  rcases hsplit : pySplit '|' line with _ | ⟨g1, _ | ⟨g2, _ | ⟨g3, _ | ⟨g4, _ | ⟨g5, rest⟩⟩⟩⟩⟩
  · exact ⟨.valueErrorUnpack line, by simp [extract_provider_customers, hsplit]⟩
  · exact ⟨.valueErrorUnpack line, by simp [extract_provider_customers, hsplit]⟩
  · exact ⟨.valueErrorUnpack line, by simp [extract_provider_customers, hsplit]⟩
  · exact ⟨.valueErrorUnpack line, by simp [extract_provider_customers, hsplit]⟩
  · rcases hbad with hlen | ⟨a1, a2, a3, a4, heq, hnone⟩
    · rw [hsplit] at hlen; simp at hlen
    · rw [hsplit] at heq
      obtain ⟨e1, e2, e3, e4⟩ : g1 = a1 ∧ g2 = a2 ∧ g3 = a3 ∧ g4 = a4 := by
        simpa using heq
      subst e1; subst e2; subst e3; subst e4
      rcases hnone with h | h
      · cases hpy2 : pyInt g2 with
        | none =>
          exact ⟨.valueErrorInt g2, by simp [extract_provider_customers, hsplit, hpy2]⟩
        | some v =>
          exact ⟨.valueErrorInt g1, by simp [extract_provider_customers, hsplit, hpy2, h]⟩
      · exact ⟨.valueErrorInt g2, by simp [extract_provider_customers, hsplit, h]⟩
  · exact ⟨.valueErrorUnpack line, by simp [extract_provider_customers, hsplit]⟩

/-- `_extract_peers` raises on a line that does not split into exactly four
fields, or whose first or second field is not an integer. -/
theorem extract_peers_err (line : Line)
    (hbad : (pySplit '|' line).length ≠ 4
        ∨ ∃ g1 g2 g3 g4, pySplit '|' line = [g1, g2, g3, g4]
            ∧ (pyInt g1 = none ∨ pyInt g2 = none)) :
    ∀ s, ∃ e, extract_peers line s = Except.error e := by
  intro s
  rcases hsplit : pySplit '|' line with _ | ⟨g1, _ | ⟨g2, _ | ⟨g3, _ | ⟨g4, _ | ⟨g5, rest⟩⟩⟩⟩⟩
  · exact ⟨.valueErrorUnpack line, by simp [extract_peers, hsplit]⟩
  · exact ⟨.valueErrorUnpack line, by simp [extract_peers, hsplit]⟩
  · exact ⟨.valueErrorUnpack line, by simp [extract_peers, hsplit]⟩
  · exact ⟨.valueErrorUnpack line, by simp [extract_peers, hsplit]⟩
  · rcases hbad with hlen | ⟨a1, a2, a3, a4, heq, hnone⟩
    · rw [hsplit] at hlen; simp at hlen
    · rw [hsplit] at heq
      obtain ⟨e1, e2, e3, e4⟩ : g1 = a1 ∧ g2 = a2 ∧ g3 = a3 ∧ g4 = a4 := by
        simpa using heq
      subst e1; subst e2; subst e3; subst e4
      rcases hnone with h | h
      · exact ⟨.valueErrorInt g1, by simp [extract_peers, hsplit, h]⟩
      · cases hpy1 : pyInt g1 with
        | none =>
          exact ⟨.valueErrorInt g1, by simp [extract_peers, hsplit, hpy1]⟩
        | some v =>
          exact ⟨.valueErrorInt g2, by simp [extract_peers, hsplit, hpy1, h]⟩
  · exact ⟨.valueErrorUnpack line, by simp [extract_peers, hsplit]⟩

/-- A malformed data line makes the loop body raise whatever the
accumulated sets are. -/
theorem get_ases_step_err (line : Line)
    (hdata : pyStartswith line (toLine "#") = false)
    (hbad : (pySplit '|' line).length ≠ 4
        ∨ ∃ g1 g2 g3 g4, pySplit '|' line = [g1, g2, g3, g4]
            ∧ (pyInt g1 = none ∨ pyInt g2 = none)) :
    ∀ acc, ∃ e, get_ases_step acc line = Except.error e := by
  intro acc
  rw [get_ases_step_data acc line hdata]
  cases hc : pyContains (toLine "-1") line with
  | true =>
    obtain ⟨e, he⟩ := extract_provider_customers_err line hbad acc.cp_links
    exact ⟨e, by simp [hc, he, Except.map]⟩
  | false =>
    obtain ⟨e, he⟩ := extract_peers_err line hbad acc.peer_links
    exact ⟨e, by simp [hc, he, Except.map]⟩

/-- A single transit line: the classifier records a `CPLink` with provider
the first field and customer the second field. -/
theorem get_ases_cp_line {f1 f2 src : Line} {a b : Int}
    (ha : pyInt f1 = some a) (hb : pyInt f2 = some b)
    (h1 : '|' ∉ f1) (h2 : '|' ∉ f2) (hs : '|' ∉ src)
    (hd : pyStartswith (mkDataLine f1 f2 (toLine "-1") src) (toLine "#") = false) :
    get_ases [mkDataLine f1 f2 (toLine "-1") src]
      = .ok ⟨{⟨a, b⟩}, ∅, ∅, ∅⟩ := by
  apply get_ases_single
  rw [get_ases_step_data _ _ hd]
  have hsp : pySplit '|' (mkDataLine f1 f2 (toLine "-1") src)
      = [f1, f2, toLine "-1", src] := pySplit_mkDataLine h1 h2 (by decide) hs
  simp [pyContains_transit, extract_provider_customers, hsp, ha, hb, Except.map]

/-- A single peer line: the body inserts the normalized `PeerLink` of the
two fields into the accumulated peer set. -/
theorem get_ases_peer_step {f1 f2 src : Line} {a b : Int} (acc : AsSets)
    (ha : pyInt f1 = some a) (hb : pyInt f2 = some b)
    (h1 : '|' ∉ f1) (h2 : '|' ∉ f2) (hs : '|' ∉ src)
    (m1 : '-' ∉ f1) (m2 : '-' ∉ f2) (ms : '-' ∉ src)
    (hd : pyStartswith (mkDataLine f1 f2 (toLine "0") src) (toLine "#") = false) :
    get_ases_step acc (mkDataLine f1 f2 (toLine "0") src)
      = .ok { acc with peer_links := insert (mkPeerLink a b) acc.peer_links } := by
  rw [get_ases_step_data _ _ hd]
  have hnd : '-' ∉ mkDataLine f1 f2 (toLine "0") src :=
    not_mem_mkDataLine m1 m2 (by decide) ms (by decide)
  have hsp : pySplit '|' (mkDataLine f1 f2 (toLine "0") src)
      = [f1, f2, toLine "0", src] := pySplit_mkDataLine h1 h2 (by decide) hs
  simp [pyContains_dash_false hnd, extract_peers, hsp, ha, hb, Except.map]

/-! The claims. -/

/-- Claim C1, counterexample: on the data line `"1|2|0|a-1b"` the
relationship-code (third) field is the peer code `"0"`, not the transit
sentinel, yet the classifier adds a CustomerProviderLink (1, 2) and adds
nothing to the peer-link set, because the dispatch in `_get_ases` tests
`"-1" in line` — substring containment over the whole line (here matched
inside the source tag `"a-1b"`) — not equality of the third field. -/
theorem claim1_counterexample :
    pySplit '|' (toLine "1|2|0|a-1b")
      = [toLine "1", toLine "2", toLine "0", toLine "a-1b"]
    ∧ get_ases [toLine "1|2|0|a-1b"] = .ok ⟨{⟨1, 2⟩}, ∅, ∅, ∅⟩ :=
  ⟨by decide, by decide⟩

/-- Claim C1, amended: a non-comment data line is routed to customer-provider
extraction if and only if the two-character string `"-1"` occurs anywhere
in the line (in any field, not just the relationship-code field); every
other non-comment line is routed to peer extraction, regardless of what
the relationship-code field contains. -/
theorem claim1_amended (acc : AsSets) (line : Line)
    (hdata : pyStartswith line (toLine "#") = false) :
    get_ases_step acc line =
      if pyContains (toLine "-1") line then
        Except.map (fun s => { acc with cp_links := s })
          (extract_provider_customers line acc.cp_links)
      else
        Except.map (fun s => { acc with peer_links := s })
          (extract_peers line acc.peer_links) :=
  get_ases_step_data acc line hdata

/-- Witness for C1's amended theorem at the concrete line `"1|2|0|a-1b"`. -/
theorem claim1_amended_witness :
    pyStartswith (toLine "1|2|0|a-1b") (toLine "#") = false
    ∧ get_ases_step ⟨∅, ∅, ∅, ∅⟩ (toLine "1|2|0|a-1b") =
        (if pyContains (toLine "-1") (toLine "1|2|0|a-1b") then
          Except.map (fun s => { (⟨∅, ∅, ∅, ∅⟩ : AsSets) with cp_links := s })
            (extract_provider_customers (toLine "1|2|0|a-1b") (∅ : Finset CPLink))
        else
          Except.map (fun s => { (⟨∅, ∅, ∅, ∅⟩ : AsSets) with peer_links := s })
            (extract_peers (toLine "1|2|0|a-1b") (∅ : Finset PeerLink))) :=
  ⟨by decide, claim1_amended ⟨∅, ∅, ∅, ∅⟩ (toLine "1|2|0|a-1b") (by decide)⟩

/-- Claim C2, counterexample: with two listing entries matching the vintage
token, `_get_url` silently returns the first match instead of failing;
no `UrlResolutionError` is raised (the code has no such error at all). -/
theorem claim2_counterexample :
    ([toLine "as-rel-20200101.bz2", toLine "extra-20200101.bz2"].filter
        (fun x => pyContains (toLine "20200101") x)).length = 2
    ∧ get_url [toLine "as-rel-20200101.bz2", toLine "extra-20200101.bz2"]
        (toLine "20200101")
      = .ok (urlBase ++ toLine "as-rel-20200101.bz2") :=
  ⟨by decide, by decide⟩

/-- Claim C2, amended: `_get_url` fails — with a plain `IndexError`, not a
dedicated `UrlResolutionError` — exactly when no listing entry embeds the
vintage token; when one or more entries match, it returns the first match
prefixed with the base URL, silently ignoring any further matches. -/
theorem claim2_amended (hrefs : List Line) (timeToken : Line) :
    (hrefs.filter (fun x => pyContains timeToken x) = [] →
      get_url hrefs timeToken = .error .indexError)
    ∧ ∀ y l, hrefs.filter (fun x => pyContains timeToken x) = y :: l →
        get_url hrefs timeToken = .ok (urlBase ++ y) := by
  constructor
  · intro h; simp [get_url, h]
  · intro y l h; simp [get_url, h]

/-- Witness for C2's amended theorem: an empty-match listing raises
`IndexError`; a single-match listing resolves to that entry. -/
theorem claim2_amended_witness :
    get_url [toLine "a.bz2"] (toLine "20200101") = .error .indexError
    ∧ get_url [toLine "a-20200101.bz2"] (toLine "20200101")
        = .ok (urlBase ++ toLine "a-20200101.bz2") :=
  ⟨(claim2_amended [toLine "a.bz2"] (toLine "20200101")).1 (by decide),
   (claim2_amended [toLine "a-20200101.bz2"] (toLine "20200101")).2
     (toLine "a-20200101.bz2") [] (by decide)⟩

/-- Claim C3, counterexample: on the spec's seven literal example lines the pass
raises instead of completing: the very first line `"# input clique"`
carries no colon, so `_extract_input_clique` splits the whole line on
spaces and calls `int("#")`, a `ValueError`. -/
theorem claim3_counterexample :
    get_ases [toLine "# input clique", toLine "# ...: 1 2", toLine "# IXP ASes",
        toLine "# ...: 50", toLine "1|3|-1|src", toLine "3|1|-1|bogus",
        toLine "2|4|0|src"]
      = .error (.valueErrorInt (toLine "#")) := by decide

/-- Claim C3, amended: with the clique and IXP declarations carried on their
marker lines after a colon (as the real dataset writes them), the example
classifies without error to cliqueSet = {1, 2}, ixpSet = {50},
peerLinks = { {2,4} }; the contradictory line `"3|1|-1|bogus"` is handled
by the code's fixed policy of storing a second distinct directed edge, so
the cp-link set is {(1,3), (3,1)}. -/
theorem claim3_amended :
    ∃ s : AsSets,
      get_ases [toLine "# input clique: 1 2", toLine "# IXP ASes: 50",
          toLine "1|3|-1|src", toLine "3|1|-1|bogus", toLine "2|4|0|src"]
        = .ok s
      ∧ s.input_clique = {1, 2} ∧ s.ixps = {50}
      ∧ s.peer_links = {⟨2, 4⟩}
      ∧ s.cp_links = {⟨1, 3⟩, ⟨3, 1⟩} := by
  refine ⟨⟨{(⟨3, 1⟩ : CPLink), ⟨1, 3⟩}, {(⟨2, 4⟩ : PeerLink)}, {50}, {2, 1}⟩,
    ?_, ?_, ?_, ?_, ?_⟩
  · rfl
  · decide
  · decide
  · decide
  · decide

/-- Claim C4, counterexample: a clique-marker line whose tokens `100`, `200`,
`300` are separated by a double space fails: `split(" ")` does not
collapse whitespace runs, producing an empty token on which `int("")`
raises `ValueError`. -/
theorem claim4_counterexample :
    pyStartswith (toLine "# input clique: 100  200 300")
      (toLine "# input clique") = true
    ∧ get_ases [toLine "# input clique: 100  200 300"]
      = .error (.valueErrorInt []) :=
  ⟨by decide, by decide⟩

/-- Claim C4, amended: for every clique-marker line whose text after the final
colon is, after stripping, exactly the single-space-separated
`"100 200 300"`, classification succeeds with input clique {100, 200, 300}
(and nothing else); separation by runs of more than one whitespace
character is not tolerated (see the counterexample). -/
theorem claim4_amended (line : Line)
    (h1 : pyStartswith line (toLine "# input clique") = true)
    (h2 : pyStrip (pyLast (pySplit ':' line)) = toLine "100 200 300") :
    ∃ s : AsSets, get_ases [line] = .ok s
      ∧ s.input_clique = {100, 200, 300}
      ∧ s.cp_links = ∅ ∧ s.peer_links = ∅ ∧ s.ixps = ∅ := by
  have hone : extract_input_clique line (∅ : Finset Int)
      = .ok (insert 300 (insert 200 (insert 100 ∅))) := by
    rw [extract_input_clique, h2]; rfl
  have hstep : get_ases_step ⟨∅, ∅, ∅, ∅⟩ line
      = .ok ⟨∅, ∅, ∅, insert 300 (insert 200 (insert 100 ∅))⟩ := by
    simp [get_ases_step, h1, hone, Except.map]
  exact ⟨_, get_ases_single hstep, by decide, by decide, by decide, by decide⟩

/-- Witness for C4's amended theorem at
`"# input clique: 100 200 300"`. -/
theorem claim4_amended_witness :
    pyStartswith (toLine "# input clique: 100 200 300")
      (toLine "# input clique") = true
    ∧ pyStrip (pyLast (pySplit ':' (toLine "# input clique: 100 200 300")))
      = toLine "100 200 300"
    ∧ ∃ s : AsSets, get_ases [toLine "# input clique: 100 200 300"] = .ok s
      ∧ s.input_clique = {100, 200, 300}
      ∧ s.cp_links = ∅ ∧ s.peer_links = ∅ ∧ s.ixps = ∅ :=
  ⟨by decide, by decide, claim4_amended _ (by decide) (by decide)⟩

/-- Claim C5: an input containing a data line that does not split on `"|"` into
exactly four fields, or whose first or second ASN field is not an integer,
makes the whole classification pass raise (`ValueError`, the behaviour the
spec names `MalformedRelationshipLine`): the pass returns an error and no
partial sets reach the caller. -/
theorem claim5_malformed_aborts (lines : List Line) (line : Line)
    (hmem : line ∈ lines)
    (hdata : pyStartswith line (toLine "#") = false)
    (hbad : (pySplit '|' line).length ≠ 4
        ∨ ∃ g1 g2 g3 g4, pySplit '|' line = [g1, g2, g3, g4]
            ∧ (pyInt g1 = none ∨ pyInt g2 = none)) :
    ∃ e, get_ases lines = Except.error e :=
  get_ases_go_error (get_ases_step_err line hdata hbad) lines hmem _

/-- Witness for C5 at the three-field line `"1|2|0"`. -/
theorem claim5_malformed_aborts_witness :
    toLine "1|2|0" ∈ [toLine "1|2|0"]
    ∧ pyStartswith (toLine "1|2|0") (toLine "#") = false
    ∧ (pySplit '|' (toLine "1|2|0")).length ≠ 4
    ∧ ∃ e, get_ases [toLine "1|2|0"] = Except.error e :=
  ⟨by decide, by decide, by decide,
   claim5_malformed_aborts [toLine "1|2|0"] (toLine "1|2|0") (by decide)
     (by decide) (Or.inl (by decide))⟩

/-- Claim C6: `_read_file` fetches exactly when the vintage's cache file is
absent or the cache flag is false; with the flag false the fetched remote
content overwrites the cache file; and starting from an absent cache file,
two successive cached runs perform exactly one fetch and return the same
lines, so the second run's classified output equals the first's. -/
theorem claim6_cache_semantics (st : CacheState) (cache : Bool) :
    ((read_file cache true true st).2.fetchCount
        = st.fetchCount + (if st.cacheFile = none ∨ cache = false then 1 else 0))
    ∧ (cache = false →
        (read_file cache true true st).2.cacheFile = some st.remote)
    ∧ (st.cacheFile = none →
        (read_file true true true (read_file true true true st).2).2.fetchCount
            = st.fetchCount + 1
        ∧ (read_file true true true (read_file true true true st).2).1
            = (read_file true true true st).1
        ∧ ∀ l1 l2, (read_file true true true st).1 = .ok l1 →
            (read_file true true true (read_file true true true st).2).1 = .ok l2 →
            get_ases l1 = get_ases l2) := by
  obtain ⟨cf, rem, n, te⟩ := st
  cases cf <;> cases cache <;>
    simp [read_file, write_cache_file, withScope, tempEnter, tempExit,
      download_file, bz2_read]

/-- Witness for C6: a cold-cache cached run fetches once and a second
cached run fetches nothing more; an uncached run overwrites the cache. -/
theorem claim6_cache_semantics_witness :
    ((read_file false true true ⟨some [toLine "old"], [toLine "new"], 0, false⟩).2.cacheFile
        = some [toLine "new"])
    ∧ (read_file true true true
          (read_file true true true ⟨none, [toLine "new"], 0, false⟩).2).2.fetchCount
        = 0 + 1 :=
  ⟨(claim6_cache_semantics ⟨some [toLine "old"], [toLine "new"], 0, false⟩ false).2.1 rfl,
   ((claim6_cache_semantics ⟨none, [toLine "new"], 0, false⟩ true).2.2 rfl).1⟩

/-- Claim C7: a valid four-field transit line produces the CustomerProviderLink
(provider = first field, customer = second field) exactly as declared;
the line with the two ASN fields swapped produces the reversed link, and
the two singleton link sets differ — the order is never corrected. -/
theorem claim7_cp_direction (f1 f2 src : Line) (a b : Int)
    (ha : pyInt f1 = some a) (hb : pyInt f2 = some b)
    (h1 : '|' ∉ f1) (h2 : '|' ∉ f2) (hs : '|' ∉ src)
    (hd1 : pyStartswith (mkDataLine f1 f2 (toLine "-1") src) (toLine "#") = false)
    (hd2 : pyStartswith (mkDataLine f2 f1 (toLine "-1") src) (toLine "#") = false)
    (hab : a ≠ b) :
    get_ases [mkDataLine f1 f2 (toLine "-1") src] = .ok ⟨{⟨a, b⟩}, ∅, ∅, ∅⟩
    ∧ get_ases [mkDataLine f2 f1 (toLine "-1") src] = .ok ⟨{⟨b, a⟩}, ∅, ∅, ∅⟩
    ∧ ({⟨a, b⟩} : Finset CPLink) ≠ {⟨b, a⟩} := by
  refine ⟨get_ases_cp_line ha hb h1 h2 hs hd1,
    get_ases_cp_line hb ha h2 h1 hs hd2, fun h => ?_⟩
  exact hab (congrArg CPLink.provider_asn (Finset.singleton_inj.mp h))

/-- Witness for C7 at the lines `"1|2|-1|src"` and `"2|1|-1|src"`. -/
theorem claim7_cp_direction_witness :
    pyInt (toLine "1") = some 1 ∧ pyInt (toLine "2") = some 2
    ∧ get_ases [mkDataLine (toLine "1") (toLine "2") (toLine "-1") (toLine "src")]
        = .ok ⟨{⟨1, 2⟩}, ∅, ∅, ∅⟩
    ∧ get_ases [mkDataLine (toLine "2") (toLine "1") (toLine "-1") (toLine "src")]
        = .ok ⟨{⟨2, 1⟩}, ∅, ∅, ∅⟩
    ∧ ({⟨1, 2⟩} : Finset CPLink) ≠ {⟨2, 1⟩} := by
  have h := claim7_cp_direction (toLine "1") (toLine "2") (toLine "src") 1 2
    (by decide) (by decide) (by decide) (by decide) (by decide) (by decide)
    (by decide) (by decide)
  exact ⟨by decide, by decide, h.1, h.2.1, h.2.2⟩

/-- Claim C8: two peer lines declaring the same unordered pair in the two
possible orders produce exactly one PeerLink entity: the normalized
constructor is symmetric and the set collapses the second insertion, so
the final peer-link set is a singleton. -/
theorem claim8_peer_dedup (f1 f2 src : Line) (a b : Int)
    (ha : pyInt f1 = some a) (hb : pyInt f2 = some b)
    (h1 : '|' ∉ f1) (h2 : '|' ∉ f2) (hs : '|' ∉ src)
    (m1 : '-' ∉ f1) (m2 : '-' ∉ f2) (ms : '-' ∉ src)
    (hd1 : pyStartswith (mkDataLine f1 f2 (toLine "0") src) (toLine "#") = false)
    (hd2 : pyStartswith (mkDataLine f2 f1 (toLine "0") src) (toLine "#") = false) :
    get_ases [mkDataLine f1 f2 (toLine "0") src, mkDataLine f2 f1 (toLine "0") src]
      = .ok ⟨∅, {mkPeerLink a b}, ∅, ∅⟩
    ∧ mkPeerLink b a = mkPeerLink a b
    ∧ ({mkPeerLink a b} : Finset PeerLink).card = 1 := by
  have hsym : mkPeerLink b a = mkPeerLink a b := by
    simp [mkPeerLink, min_comm, max_comm]
  refine ⟨?_, hsym, Finset.card_singleton _⟩
  have s1 : get_ases_step ⟨∅, ∅, ∅, ∅⟩ (mkDataLine f1 f2 (toLine "0") src)
      = .ok ⟨∅, insert (mkPeerLink a b) ∅, ∅, ∅⟩ :=
    get_ases_peer_step _ ha hb h1 h2 hs m1 m2 ms hd1
  have s2 : get_ases_step ⟨∅, insert (mkPeerLink a b) ∅, ∅, ∅⟩
        (mkDataLine f2 f1 (toLine "0") src)
      = .ok ⟨∅, insert (mkPeerLink a b) ∅, ∅, ∅⟩ := by
    rw [get_ases_peer_step _ hb ha h2 h1 hs m2 m1 ms hd2, hsym]
    simp [Finset.insert_idem]
  exact get_ases_pair s1 s2

/-- Witness for C8 at the lines `"1|2|0|src"` and `"2|1|0|src"`. -/
theorem claim8_peer_dedup_witness :
    pyInt (toLine "1") = some 1 ∧ pyInt (toLine "2") = some 2
    ∧ get_ases [mkDataLine (toLine "1") (toLine "2") (toLine "0") (toLine "src"),
        mkDataLine (toLine "2") (toLine "1") (toLine "0") (toLine "src")]
      = .ok ⟨∅, {mkPeerLink 1 2}, ∅, ∅⟩
    ∧ mkPeerLink 2 1 = mkPeerLink 1 2
    ∧ ({mkPeerLink 1 2} : Finset PeerLink).card = 1 := by
  have h := claim8_peer_dedup (toLine "1") (toLine "2") (toLine "src") 1 2
    (by decide) (by decide) (by decide) (by decide) (by decide) (by decide)
    (by decide) (by decide) (by decide) (by decide)
  exact ⟨by decide, by decide, h.1, h.2.1, h.2.2⟩

/-- Claim C9: whatever the download and decompression outcomes, the scoped
temporary download file is gone from the final state of
`_write_cache_file` — the `with temp_path(...)` exit action runs on the
success path and on both failure paths (which re-raise `DownloadError`
resp. `DecompressionError`) before control returns to the caller. -/
theorem claim9_temp_file_removed (dlOk dcOk : Bool) (st : CacheState) :
    ((write_cache_file dlOk dcOk st).2).tempExists = false
    ∧ (dlOk = false →
        (write_cache_file dlOk dcOk st).1 = .error .downloadError)
    ∧ (dlOk = true → dcOk = false →
        (write_cache_file dlOk dcOk st).1 = .error .decompressionError) := by
  cases dlOk <;> cases dcOk <;>
    simp [write_cache_file, withScope, tempEnter, tempExit, download_file,
      bz2_read]

/-- Witness for C9 on a failing download over a dirty state. -/
theorem claim9_temp_file_removed_witness :
    ((write_cache_file false false ⟨none, [], 0, true⟩).2).tempExists = false
    ∧ (write_cache_file false false ⟨none, [], 0, true⟩).1
        = .error .downloadError :=
  ⟨(claim9_temp_file_removed false false ⟨none, [], 0, true⟩).1,
   (claim9_temp_file_removed false false ⟨none, [], 0, true⟩).2.1 rfl⟩

/-- Claim C10: a blank line is not a comment and does not contain the transit
sentinel, so `_get_ases` hands it to `_extract_peers`, whose four-way
unpack of `"".split("|") == [""]` raises; hence any input containing a
blank line aborts the whole pass. -/
theorem claim10_blank_line_aborts (lines : List Line)
    (hmem : ([] : Line) ∈ lines) :
    pyStartswith ([] : Line) (toLine "#") = false
    ∧ pyContains (toLine "-1") ([] : Line) = false
    ∧ (∀ s, extract_peers ([] : Line) s = Except.error (.valueErrorUnpack []))
    ∧ ∃ e, get_ases lines = Except.error e := by
  have hstep : ∀ acc, get_ases_step acc ([] : Line)
      = Except.error (.valueErrorUnpack []) := by
    intro acc
    rw [get_ases_step_data acc [] (by decide)]
    have hc : pyContains (toLine "-1") ([] : Line) = false := by decide
    simp [hc, extract_peers, pySplit, Except.map]
  refine ⟨by decide, by decide, fun s => ?_, ?_⟩
  · simp [extract_peers, pySplit]
  · exact get_ases_go_error (fun acc => ⟨_, hstep acc⟩) lines hmem _

/-- Witness for C10: a blank line amid valid lines aborts the pass. -/
theorem claim10_blank_line_aborts_witness :
    ([] : Line) ∈ [toLine "1|2|0|src", ([] : Line)]
    ∧ (pyStartswith ([] : Line) (toLine "#") = false
      ∧ pyContains (toLine "-1") ([] : Line) = false
      ∧ (∀ s, extract_peers ([] : Line) s = Except.error (.valueErrorUnpack []))
      ∧ ∃ e, get_ases [toLine "1|2|0|src", ([] : Line)] = Except.error e) :=
  ⟨by decide, claim10_blank_line_aborts [toLine "1|2|0|src", []] (by decide)⟩

end Caida
